import Mathlib

/-!
# Verification of the PMG1 CapSense CSD button-tuning firmware (src/main.c)

Shallow embedding of `main.c` from the Infineon
`mtb-example-pmg1-capsense-csd-button-tuning` code example.

The firmware is a single foreground `main` that
1. initializes board, EZI2C, interrupts and the CapSense middleware,
   halting via `CY_ASSERT(0u)` on any failure,
2. registers `cy_capsense_tuner` as the EZI2C slave buffer once,
3. runs an infinite loop: when the scan engine is not busy it processes
   all widgets, drives the two button LEDs from the widget active flags,
   runs the tuner, optionally measures sensor capacitance (BIST), and
   starts the next scan.

The vendor middleware calls (`Cy_CapSense_*`, `Cy_SCB_*`, `Cy_GPIO_Write`,
`Cy_SysInt_Init`, `cybsp_init`) are external collaborators.  Their return
values and out-parameters are supplied by environment records (`Env` for a
loop iteration, `InitEnv` for the startup sequence), and each call the
program makes is recorded as an `Event` in a trace, in program order.
All status codes are modelled as `Nat`, with `0` the success value
(`CY_RSLT_SUCCESS`, `CY_SCB_EZI2C_SUCCESS`, `CY_SYSINT_SUCCESS` and
`CY_CAPSENSE_STATUS_SUCCESS` are all the zero code of their enums).
The model fixes `DEBUG_PRINT = 0` as in the source (line 66), so the
`#if DEBUG_PRINT` blocks are compiled out.
-/

/-- Macro `CY_ASSERT_FAILED`, defined as `0u` (main.c line 57). -/
def CY_ASSERT_FAILED : Nat := 0

/-- Macro `EZI2C_INTR_PRIORITY`, defined as `2u` (main.c line 60). -/
def EZI2C_INTR_PRIORITY : Nat := 2

/-- Macro `CAPSENSE_INTR_PRIORITY`, defined as `3u` (main.c line 63). -/
def CAPSENSE_INTR_PRIORITY : Nat := 3

/-- Macro `DEBUG_PRINT`, defined as `0u` (main.c line 66). -/
def DEBUG_PRINT : Nat := 0

/-- Macro `NO_BUTTON_TOUCH`, defined as `0u` (main.c line 69). -/
def NO_BUTTON_TOUCH : Nat := 0

/-- Interrupt sources used by this program (from the BSP headers:
`CYBSP_EZI2C_IRQ`, `CYBSP_CSD_IRQ`). -/
inductive IrqSrc where
  | ezi2c
  | csd
  deriving DecidableEq, Repr

/-- Embedding of `cy_stc_sysint_t`: interrupt source and NVIC priority. -/
structure SysIntConfig where
  intrSrc : IrqSrc
  intrPriority : Nat
  deriving DecidableEq, Repr

/-- Global `ezi2c_intr_config` (main.c lines 78-82). -/
def ezi2c_intr_config : SysIntConfig :=
  { intrSrc := IrqSrc.ezi2c, intrPriority := EZI2C_INTR_PRIORITY }

/-- Global `capsense_interrupt_config` (main.c lines 85-89). -/
def capsense_interrupt_config : SysIntConfig :=
  { intrSrc := IrqSrc.csd, intrPriority := CAPSENSE_INTR_PRIORITY }

/-- On the Cortex-M NVIC a smaller `intrPriority` number is a higher
effective (preemption) priority. -/
def higherEffectivePriority (a b : SysIntConfig) : Prop :=
  a.intrPriority < b.intrPriority

instance (a b : SysIntConfig) : Decidable (higherEffectivePriority a b) :=
  inferInstanceAs (Decidable (a.intrPriority < b.intrPriority))

/-- Buffers the program can hand to the EZI2C transport.  The only one in
this program is the CapSense tuner structure `cy_capsense_tuner`. -/
inductive BufferId where
  | capsenseTuner
  deriving DecidableEq, Repr

/-- One vendor-API call made by the program, recorded in program order.
The `Nat` payloads are the status codes returned by the call (and, for
`measureCapSensor`, the widget id, sensor id, status). -/
inductive Event where
  /-- Call to `cybsp_init()` returning the given status (line 182). -/
  | cybspInit (status : Nat)
  /-- Call to `__enable_irq()` (line 205). -/
  | enableIrq
  /-- Call to `Cy_SCB_EZI2C_Init` returning the given status (line 208). -/
  | ezi2cInit (status : Nat)
  /-- Call to `Cy_SysInt_Init` for a config, returning the given status (lines 218, 255). -/
  | sysIntInit (cfg : SysIntConfig) (status : Nat)
  /-- Call to `NVIC_EnableIRQ` (lines 229, 269). -/
  | nvicEnable (src : IrqSrc)
  /-- Call to `NVIC_ClearPendingIRQ` (line 266). -/
  | nvicClearPending (src : IrqSrc)
  /-- Call to `Cy_SCB_EZI2C_SetBuffer1(hw, buf, size1, size2, ctx)` (lines 236-238). -/
  | setBuffer (buf : BufferId) (size1 : Nat) (size2 : Nat)
  /-- Call to `Cy_SCB_EZI2C_Enable` (line 241). -/
  | ezi2cEnable
  /-- Call to `Cy_CapSense_Init` returning the given status (line 244). -/
  | capsenseInit (status : Nat)
  /-- Call to `Cy_CapSense_Enable` returning the given status (line 272). -/
  | capsenseEnable (status : Nat)
  /-- Observation by `Cy_CapSense_IsBusy`: `true` iff the result equalled
  `CY_CAPSENSE_BUSY` (line 295). -/
  | checkBusy (busy : Bool)
  /-- Call to `Cy_CapSense_ProcessAllWidgets` returning the given status (line 298). -/
  | processAllWidgets (status : Nat)
  /-- Call to `Cy_GPIO_Write` on a button LED: `led` is the button index,
  `value` the driven LED state (lines 303, 307, 313, 317). -/
  | gpioWrite (led : Nat) (value : Bool)
  /-- Call to `Cy_CapSense_RunTuner` returning the given status (line 321). -/
  | runTuner (status : Nat)
  /-- Call to `Cy_CapSense_MeasureCapacitanceSensor` on (widget, sensor) returning
  the given BIST status (lines 398, 404). -/
  | measureCapSensor (widget : Nat) (sensor : Nat) (status : Nat)
  /-- Call to `Cy_CapSense_ScanAllWidgets` returning the given status (lines 283, 329). -/
  | scanAllWidgets (status : Nat)
  /-- Execution of `CY_ASSERT(CY_ASSERT_FAILED)`: assertion failure, execution halts. -/
  | assertHalt
  deriving DecidableEq, Repr

/-- Widget id `CY_CAPSENSE_BUTTON0_WDGT_ID` from the generated
`cycfg_capsense.h` (first configured widget). -/
def CY_CAPSENSE_BUTTON0_WDGT_ID : Nat := 0

/-- Widget id `CY_CAPSENSE_BUTTON1_WDGT_ID` from the generated
`cycfg_capsense.h` (second configured widget). -/
def CY_CAPSENSE_BUTTON1_WDGT_ID : Nat := 1

/-- Sensor id `CY_CAPSENSE_BUTTON0_SNS0_ID` (single-sensor button). -/
def CY_CAPSENSE_BUTTON0_SNS0_ID : Nat := 0

/-- Sensor id `CY_CAPSENSE_BUTTON1_SNS0_ID` (single-sensor button). -/
def CY_CAPSENSE_BUTTON1_SNS0_ID : Nat := 0

/-- The mutable program state `main.c` owns: the two LED outputs driven by
`Cy_GPIO_Write` (`true` = `CYBSP_LED_STATE_ON`), and, under
`CY_CAPSENSE_BIST_EN`, the globals `button_0_sensor_cp`,
`button_1_sensor_cp`, `cp_0_status`, `cp_1_status` (lines 93-96). -/
structure ProgState where
  led0 : Bool
  led1 : Bool
  button_0_sensor_cp : Nat
  button_1_sensor_cp : Nat
  cp_0_status : Nat
  cp_1_status : Nat
  deriving DecidableEq, Repr

/-- Initial program state: the BIST globals are zero-initialized
(line 93); LED state before the first write is board-defined, taken off. -/
def progState0 : ProgState :=
  { led0 := false, led1 := false, button_0_sensor_cp := 0,
    button_1_sensor_cp := 0, cp_0_status := 0, cp_1_status := 0 }

/-- Environment for one main-loop iteration: the values the vendor calls
return in that iteration.  `busy` is the result of the comparison
`CY_CAPSENSE_BUSY != Cy_CapSense_IsBusy(...)` negated, i.e. `true` when
the scan engine reports busy.  `widgetActive0`/`widgetActive1` are the
`uint32_t` results of `Cy_CapSense_IsWidgetActive` for the two buttons.
`measureCp0`/`measureCp1` and `measureStatus0`/`measureStatus1` are the
out-parameter and return of the two BIST measurements. -/
structure Env where
  busy : Bool
  processStatus : Nat
  widgetActive0 : Nat
  widgetActive1 : Nat
  tunerStatus : Nat
  measureCp0 : Nat
  measureCp1 : Nat
  measureStatus0 : Nat
  measureStatus1 : Nat
  scanStatus : Nat
  deriving DecidableEq, Repr

/-- Function `measure_sensor_cp` (main.c lines 395-407): measures Button 0 then
Button 1 unconditionally in sequence, storing each capacitance in its
global and each status in its status variable. -/
def measure_sensor_cp (env : Env) (s : ProgState) : ProgState × List Event :=
  let s1 := { s with button_0_sensor_cp := env.measureCp0,
                     cp_0_status := env.measureStatus0 }
  let s2 := { s1 with button_1_sensor_cp := env.measureCp1,
                      cp_1_status := env.measureStatus1 }
  (s2, [Event.measureCapSensor CY_CAPSENSE_BUTTON0_WDGT_ID
          CY_CAPSENSE_BUTTON0_SNS0_ID env.measureStatus0,
        Event.measureCapSensor CY_CAPSENSE_BUTTON1_WDGT_ID
          CY_CAPSENSE_BUTTON1_SNS0_ID env.measureStatus1])

/-- One iteration of the `for (;;)` loop (main.c lines 293-339), with
`DEBUG_PRINT = 0` so the trailing debug block is compiled out.
`bist` is the compile-time flag `CY_CAPSENSE_BIST_EN`.  If the busy check
observes busy, the iteration does nothing else; otherwise it processes all
widgets, writes each button LED from its widget's active flag
(`NO_BUTTON_TOUCH != Cy_CapSense_IsWidgetActive(...)`), runs the tuner,
optionally measures sensor capacitance, and starts the next scan.  All
in-loop return statuses are discarded by the program, exactly as in the
source; the trace records them. -/
def loopIteration (bist : Bool) (env : Env) (s : ProgState) :
    ProgState × List Event :=
  if env.busy then
    (s, [Event.checkBusy true])
  else
    let led0on : Bool := env.widgetActive0 != NO_BUTTON_TOUCH
    let led1on : Bool := env.widgetActive1 != NO_BUTTON_TOUCH
    let sLed := { s with led0 := led0on, led1 := led1on }
    let m := if bist then measure_sensor_cp env sLed else (sLed, [])
    (m.1,
      [Event.checkBusy false,
       Event.processAllWidgets env.processStatus,
       Event.gpioWrite 0 led0on,
       Event.gpioWrite 1 led1on,
       Event.runTuner env.tunerStatus]
      ++ m.2
      ++ [Event.scanAllWidgets env.scanStatus])

/-- The loop run over a schedule of per-iteration environments, producing
the final state and the list of per-iteration traces.  The source loop is
infinite; any finite prefix of its iterations is of this form. -/
def runLoop (bist : Bool) : List Env → ProgState → ProgState × List (List Event)
  | [], s => (s, [])
  | env :: rest, s =>
    let r := loopIteration bist env s
    let rr := runLoop bist rest r.1
    (rr.1, r.2 :: rr.2)

/-- Environment for the startup sequence (main.c lines 181-291): the
status each required init/enable call returns, in program order.
Success is the zero code of the corresponding vendor enum. -/
structure InitEnv where
  cybspStatus : Nat
  ezi2cInitStatus : Nat
  ezi2cSysIntStatus : Nat
  capsenseInitStatus : Nat
  capsenseSysIntStatus : Nat
  capsenseEnableStatus : Nat
  firstScanStatus : Nat
  deriving DecidableEq, Repr

/-- The startup sequence of `main` before the `for (;;)` loop
(main.c lines 181-291), with `DEBUG_PRINT = 0` so the UART setup and
`check_status` calls are compiled out.  `tunerSize` is
`sizeof(cy_capsense_tuner)`, passed twice to `Cy_SCB_EZI2C_SetBuffer1`.
Each failed status check executes `CY_ASSERT(CY_ASSERT_FAILED)`, which
halts: the returned `Bool` is `true` iff execution goes on to reach the
main loop, and the trace lists the calls made up to the halt. -/
def initSequence (tunerSize : Nat) (env : InitEnv) : Bool × List Event :=
  let t0 := [Event.cybspInit env.cybspStatus]
  if env.cybspStatus ≠ 0 then (false, t0 ++ [Event.assertHalt]) else
  let t1 := t0 ++ [Event.enableIrq, Event.ezi2cInit env.ezi2cInitStatus]
  if env.ezi2cInitStatus ≠ 0 then (false, t1 ++ [Event.assertHalt]) else
  let t2 := t1 ++ [Event.sysIntInit ezi2c_intr_config env.ezi2cSysIntStatus]
  if env.ezi2cSysIntStatus ≠ 0 then (false, t2 ++ [Event.assertHalt]) else
  let t3 := t2 ++ [Event.nvicEnable IrqSrc.ezi2c,
                   Event.setBuffer BufferId.capsenseTuner tunerSize tunerSize,
                   Event.ezi2cEnable,
                   Event.capsenseInit env.capsenseInitStatus]
  if env.capsenseInitStatus ≠ 0 then (false, t3 ++ [Event.assertHalt]) else
  let t4 := t3 ++ [Event.sysIntInit capsense_interrupt_config
                     env.capsenseSysIntStatus]
  if env.capsenseSysIntStatus ≠ 0 then (false, t4 ++ [Event.assertHalt]) else
  let t5 := t4 ++ [Event.nvicClearPending IrqSrc.csd,
                   Event.nvicEnable IrqSrc.csd,
                   Event.capsenseEnable env.capsenseEnableStatus]
  if env.capsenseEnableStatus ≠ 0 then (false, t5 ++ [Event.assertHalt]) else
  let t6 := t5 ++ [Event.scanAllWidgets env.firstScanStatus]
  if env.firstScanStatus ≠ 0 then (false, t6 ++ [Event.assertHalt]) else
  (true, t6)

/-- The whole program over a finite schedule: the startup sequence
followed, when the main loop is reached, by the loop iterations'
events in order. -/
def programTrace (tunerSize : Nat) (ienv : InitEnv) (bist : Bool)
    (envs : List Env) : List Event :=
  let ini := initSequence tunerSize ienv
  if ini.1 then ini.2 ++ (runLoop bist envs progState0).2.flatten
  else ini.2

/-- Recognizer for EZI2C buffer-registration events. -/
def isSetBuffer : Event → Bool
  | Event.setBuffer _ _ _ => true
  | _ => false

/-- Modelled from the spec: the per-widget threshold/hysteresis decision
performed inside `Cy_CapSense_ProcessAllWidgets`, which is vendor
middleware not part of this repository (main.c only calls it).  Per the
spec: activation requires difference count at or above the ON threshold,
deactivation requires difference count at or below the (lower) OFF
threshold, and a value strictly between the two preserves the previous
state.  `prev` is the widget's previous active flag, `diff` its current
difference count. -/
def widgetHysteresis (onTh offTh diff : Nat) (prev : Bool) : Bool :=
  if onTh ≤ diff then true
  else if diff ≤ offTh then false
  else prev

/-- Concrete environment of an iteration observing the scan engine busy,
all statuses success. -/
def envBusy : Env :=
  { busy := true, processStatus := 0, widgetActive0 := 0, widgetActive1 := 0,
    tunerStatus := 0, measureCp0 := 0, measureCp1 := 0,
    measureStatus0 := 0, measureStatus1 := 0, scanStatus := 0 }

/-- Concrete environment of an iteration observing the scan engine idle,
button 0 active, all statuses success. -/
def envIdle : Env :=
  { busy := false, processStatus := 0, widgetActive0 := 1, widgetActive1 := 0,
    tunerStatus := 0, measureCp0 := 5, measureCp1 := 7,
    measureStatus0 := 0, measureStatus1 := 0, scanStatus := 0 }

/-- Concrete idle-observing environment in which the in-loop
`Cy_CapSense_ScanAllWidgets` returns a failure status (nonzero). -/
def envScanFail : Env :=
  { envIdle with scanStatus := 1 }

/-- C1: in every iteration of the foreground main loop, widget processing
runs exactly when the non-blocking busy check observed not-busy in that
same iteration, and an iteration observing busy performs nothing beyond
the single status check. -/
theorem processing_gated_by_busy_check (bist : Bool) (env : Env)
    (s : ProgState) :
    (Event.processAllWidgets env.processStatus ∈ (loopIteration bist env s).2
        ↔ env.busy = false) ∧
    (env.busy = true →
        (loopIteration bist env s).2 = [Event.checkBusy true]) := by
  cases h : env.busy <;>
    cases bist <;>
      simp [loopIteration, measure_sensor_cp, h]

/-- C1 witness: the theorem instantiated at a concrete busy iteration. -/
theorem processing_gated_by_busy_check_witness :
    (Event.processAllWidgets envBusy.processStatus
        ∈ (loopIteration false envBusy progState0).2 ↔ envBusy.busy = false) ∧
    (envBusy.busy = true →
        (loopIteration false envBusy progState0).2 = [Event.checkBusy true]) :=
  processing_gated_by_busy_check false envBusy progState0

/-- C2: in every processed cycle each button LED is written, and is
written as the pure function of the corresponding widget's latest active
flag: ON exactly when `Cy_CapSense_IsWidgetActive` returned a value other
than `NO_BUTTON_TOUCH`. -/
theorem led_written_from_widget_state (bist : Bool) (env : Env)
    (s : ProgState) (h : env.busy = false) :
    (loopIteration bist env s).1.led0 = (env.widgetActive0 != NO_BUTTON_TOUCH) ∧
    (loopIteration bist env s).1.led1 = (env.widgetActive1 != NO_BUTTON_TOUCH) ∧
    Event.gpioWrite 0 (env.widgetActive0 != NO_BUTTON_TOUCH)
        ∈ (loopIteration bist env s).2 ∧
    Event.gpioWrite 1 (env.widgetActive1 != NO_BUTTON_TOUCH)
        ∈ (loopIteration bist env s).2 := by
  cases bist <;>
    simp [loopIteration, measure_sensor_cp, h]

/-- C2 witness: the theorem instantiated at a concrete idle iteration. -/
theorem led_written_from_widget_state_witness :
    (loopIteration true envIdle progState0).1.led0
        = (envIdle.widgetActive0 != NO_BUTTON_TOUCH) ∧
    (loopIteration true envIdle progState0).1.led1
        = (envIdle.widgetActive1 != NO_BUTTON_TOUCH) ∧
    Event.gpioWrite 0 (envIdle.widgetActive0 != NO_BUTTON_TOUCH)
        ∈ (loopIteration true envIdle progState0).2 ∧
    Event.gpioWrite 1 (envIdle.widgetActive1 != NO_BUTTON_TOUCH)
        ∈ (loopIteration true envIdle progState0).2 :=
  led_written_from_widget_state true envIdle progState0 rfl

/-- C10: a main-loop iteration that observes the scan engine busy (with
debug printing disabled, as in the source) leaves the whole program state
unchanged and makes no call other than the busy check: no processing, no
GPIO write, no tuner run, no diagnostic measurement, no scan request. -/
theorem busy_iteration_is_frame (bist : Bool) (env : Env) (s : ProgState)
    (h : env.busy = true) :
    (loopIteration bist env s).1 = s ∧
    (loopIteration bist env s).2 = [Event.checkBusy true] := by
  simp [loopIteration, h]

/-- C10 witness: the theorem instantiated at a concrete busy iteration. -/
theorem busy_iteration_is_frame_witness :
    (loopIteration true envBusy progState0).1 = progState0 ∧
    (loopIteration true envBusy progState0).2 = [Event.checkBusy true] :=
  busy_iteration_is_frame true envBusy progState0 rfl

/-- C3: within every processed cycle, each of widget processing, the
tuner run and the next scan start occurs exactly once, and they occur in
that strict order: processing, then tuner (telemetry publish), then the
next scan request. -/
theorem tuner_after_processing_before_scan (bist : Bool) (env : Env)
    (s : ProgState) (h : env.busy = false) :
    (loopIteration bist env s).2.count
        (Event.processAllWidgets env.processStatus) = 1 ∧
    (loopIteration bist env s).2.count (Event.runTuner env.tunerStatus) = 1 ∧
    (loopIteration bist env s).2.count
        (Event.scanAllWidgets env.scanStatus) = 1 ∧
    ∃ i j k : Nat, i < j ∧ j < k ∧
      (loopIteration bist env s).2.get? i
          = some (Event.processAllWidgets env.processStatus) ∧
      (loopIteration bist env s).2.get? j
          = some (Event.runTuner env.tunerStatus) ∧
      (loopIteration bist env s).2.get? k
          = some (Event.scanAllWidgets env.scanStatus) := by
  cases bist with
  | false =>
    simp [loopIteration, measure_sensor_cp, h, List.count_cons]
    exact ⟨1, 4, by omega, 5, by omega, rfl, rfl, rfl⟩
  | true =>
    simp [loopIteration, measure_sensor_cp, h, List.count_cons]
    exact ⟨1, 4, by omega, 7, by omega, rfl, rfl, rfl⟩

/-- C3 witness: the theorem instantiated at a concrete idle iteration. -/
theorem tuner_after_processing_before_scan_witness :
    (loopIteration false envIdle progState0).2.count
        (Event.processAllWidgets envIdle.processStatus) = 1 ∧
    (loopIteration false envIdle progState0).2.count
        (Event.runTuner envIdle.tunerStatus) = 1 ∧
    (loopIteration false envIdle progState0).2.count
        (Event.scanAllWidgets envIdle.scanStatus) = 1 ∧
    ∃ i j k : Nat, i < j ∧ j < k ∧
      (loopIteration false envIdle progState0).2.get? i
          = some (Event.processAllWidgets envIdle.processStatus) ∧
      (loopIteration false envIdle progState0).2.get? j
          = some (Event.runTuner envIdle.tunerStatus) ∧
      (loopIteration false envIdle progState0).2.get? k
          = some (Event.scanAllWidgets envIdle.scanStatus) :=
  tuner_after_processing_before_scan false envIdle progState0 rfl

/-- C4 counterexample: an in-loop scan-start rejection is not fatal.  In a
cycle where `Cy_CapSense_ScanAllWidgets` returns a failure status (1), no
assertion halt occurs, and a subsequent iteration still runs widget
processing — progress is not stopped, contradicting the claim that every
runtime API failure inside the main cycle is fatal. -/
theorem inloop_failure_not_fatal :
    Event.scanAllWidgets 1 ∈ (loopIteration false envScanFail progState0).2 ∧
    Event.assertHalt ∉ (loopIteration false envScanFail progState0).2 ∧
    Event.processAllWidgets 0 ∈
      (loopIteration false envIdle
        (loopIteration false envScanFail progState0).1).2 := by
  decide

/-- C4 amended: runtime API failures inside the main cycle are ignored,
not fatal: the loop discards the return statuses of processing, the tuner
run and the in-loop scan start (the iteration's resulting state does not
depend on them), no iteration ever executes an assertion halt, and every
scheduled iteration of the loop runs. -/
theorem inloop_statuses_ignored (bist : Bool) (envs : List Env)
    (s : ProgState) :
    (runLoop bist envs s).2.length = envs.length ∧
    (∀ env : Env, ∀ p t sc : Nat,
      (loopIteration bist
          { env with processStatus := p, tunerStatus := t, scanStatus := sc }
          s).1
        = (loopIteration bist env s).1) ∧
    (∀ env : Env, Event.assertHalt ∉ (loopIteration bist env s).2) := by
  refine ⟨?_, ?_, ?_⟩
  · induction envs generalizing s with
    | nil => rfl
    | cons e rest ih => simp [runLoop, ih]
  · intro env p t sc
    cases h : env.busy <;> cases bist <;>
      simp [loopIteration, measure_sensor_cp, h]
  · intro env
    cases h : env.busy <;> cases bist <;>
      simp [loopIteration, measure_sensor_cp, h]

/-- C9 (modelled from the spec, since the threshold logic lives inside the
vendor middleware call `Cy_CapSense_ProcessAllWidgets`): with the OFF
threshold strictly below the ON threshold, a widget becomes active only
when its difference count is at or above the ON threshold, becomes
inactive only when its difference count is at or below the OFF threshold,
and a difference count strictly between the two thresholds leaves the
previous active state unchanged. -/
theorem hysteresis_threshold_rule (onTh offTh diff : Nat) (prev : Bool)
    (h : offTh < onTh) :
    (prev = false → widgetHysteresis onTh offTh diff prev = true →
        onTh ≤ diff) ∧
    (prev = true → widgetHysteresis onTh offTh diff prev = false →
        diff ≤ offTh) ∧
    (offTh < diff → diff < onTh →
        widgetHysteresis onTh offTh diff prev = prev) := by
  unfold widgetHysteresis
  split_ifs <;> simp_all

/-- C9 witness: ON = 50, OFF = 20, difference 30 strictly between the
thresholds preserves the previous state. -/
theorem hysteresis_threshold_rule_witness :
    (false = false → widgetHysteresis 50 20 30 false = true → 50 ≤ 30) ∧
    (false = true → widgetHysteresis 50 20 30 false = false → 30 ≤ 20) ∧
    (20 < 30 → 30 < 50 → widgetHysteresis 50 20 30 false = false) :=
  hysteresis_threshold_rule 50 20 30 false (by decide)

/-- Concrete startup environment in which every call succeeds. -/
def initEnvAllOk : InitEnv :=
  { cybspStatus := 0, ezi2cInitStatus := 0, ezi2cSysIntStatus := 0,
    capsenseInitStatus := 0, capsenseSysIntStatus := 0,
    capsenseEnableStatus := 0, firstScanStatus := 0 }

/-- Concrete startup environment in which `Cy_CapSense_Enable` fails. -/
def initEnvEnableFail : InitEnv :=
  { initEnvAllOk with capsenseEnableStatus := 1 }

/-- C5: the main loop is reached exactly when board bring-up, EZI2C init,
both interrupt inits, CapSense init, CapSense enable and the first scan
request all return success; any failure among them halts the program via
the assertion before the loop is entered, with no retry. -/
theorem init_failure_halts_before_loop (tunerSize : Nat) (env : InitEnv) :
    ((initSequence tunerSize env).1 = true ↔
      (env.cybspStatus = 0 ∧ env.ezi2cInitStatus = 0 ∧
       env.ezi2cSysIntStatus = 0 ∧ env.capsenseInitStatus = 0 ∧
       env.capsenseSysIntStatus = 0 ∧ env.capsenseEnableStatus = 0 ∧
       env.firstScanStatus = 0)) ∧
    ((initSequence tunerSize env).1 = false →
      (initSequence tunerSize env).2.getLast? = some Event.assertHalt) := by
  unfold initSequence
  split_ifs <;> simp_all

/-- C5 witness: the theorem instantiated at a startup in which
`Cy_CapSense_Enable` fails: the loop is not reached and the trace ends in
the assertion halt. -/
theorem init_failure_halts_before_loop_witness :
    ((initSequence 256 initEnvEnableFail).1 = true ↔
      (initEnvEnableFail.cybspStatus = 0 ∧
       initEnvEnableFail.ezi2cInitStatus = 0 ∧
       initEnvEnableFail.ezi2cSysIntStatus = 0 ∧
       initEnvEnableFail.capsenseInitStatus = 0 ∧
       initEnvEnableFail.capsenseSysIntStatus = 0 ∧
       initEnvEnableFail.capsenseEnableStatus = 0 ∧
       initEnvEnableFail.firstScanStatus = 0)) ∧
    ((initSequence 256 initEnvEnableFail).1 = false →
      (initSequence 256 initEnvEnableFail).2.getLast?
        = some Event.assertHalt) :=
  init_failure_halts_before_loop 256 initEnvEnableFail

/-- On a successful startup, the trace of calls made before the loop is
this fixed sequence (all statuses are the success code 0). -/
lemma initSequence_success_trace (tunerSize : Nat) (env : InitEnv)
    (h : (initSequence tunerSize env).1 = true) :
    (initSequence tunerSize env).2 =
      [Event.cybspInit 0, Event.enableIrq, Event.ezi2cInit 0,
       Event.sysIntInit ezi2c_intr_config 0, Event.nvicEnable IrqSrc.ezi2c,
       Event.setBuffer BufferId.capsenseTuner tunerSize tunerSize,
       Event.ezi2cEnable, Event.capsenseInit 0,
       Event.sysIntInit capsense_interrupt_config 0,
       Event.nvicClearPending IrqSrc.csd, Event.nvicEnable IrqSrc.csd,
       Event.capsenseEnable 0, Event.scanAllWidgets 0] := by
  unfold initSequence at h ⊢
  split_ifs at h ⊢ <;> simp_all

/-- No iteration of the main loop ever registers an EZI2C buffer. -/
lemma runLoop_no_setBuffer (bist : Bool) (envs : List Env) (s : ProgState) :
    ((runLoop bist envs s).2.flatten).filter isSetBuffer = [] := by
  induction envs generalizing s with
  | nil => rfl
  | cons e rest ih =>
    cases h : e.busy <;> cases bist <;>
      simp [runLoop, loopIteration, measure_sensor_cp, h, isSetBuffer, ih]

/-- C6: over the whole program (startup followed by any number of loop
iterations), the CapSense tuner structure is registered with the EZI2C
transport exactly once, during startup, exposing the full structure size
(`sizeof(cy_capsense_tuner)` as both buffer size and read boundary); no
loop iteration registers or relocates any buffer. -/
theorem tuner_buffer_registered_once (tunerSize : Nat) (ienv : InitEnv)
    (bist : Bool) (envs : List Env)
    (h : (initSequence tunerSize ienv).1 = true) :
    (programTrace tunerSize ienv bist envs).filter isSetBuffer
      = [Event.setBuffer BufferId.capsenseTuner tunerSize tunerSize] ∧
    ((initSequence tunerSize ienv).2).filter isSetBuffer
      = [Event.setBuffer BufferId.capsenseTuner tunerSize tunerSize] ∧
    ((runLoop bist envs progState0).2.flatten).filter isSetBuffer = [] := by
  have hini := initSequence_success_trace tunerSize ienv h
  have hloop := runLoop_no_setBuffer bist envs progState0
  refine ⟨?_, ?_, hloop⟩
  · simp [programTrace, h, hini, isSetBuffer, List.filter_append, hloop]
  · simp [hini, isSetBuffer]

/-- C6 witness: the theorem instantiated at a successful startup followed
by one busy and one idle iteration. -/
theorem tuner_buffer_registered_once_witness :
    (programTrace 256 initEnvAllOk true [envBusy, envIdle]).filter isSetBuffer
      = [Event.setBuffer BufferId.capsenseTuner 256 256] ∧
    ((initSequence 256 initEnvAllOk).2).filter isSetBuffer
      = [Event.setBuffer BufferId.capsenseTuner 256 256] ∧
    ((runLoop true [envBusy, envIdle] progState0).2.flatten).filter
        isSetBuffer = [] :=
  tuner_buffer_registered_once 256 initEnvAllOk true [envBusy, envIdle]
    (by decide)

/-- C7: the EZI2C (bus) interrupt is configured at NVIC priority 2 and the
CapSense scan interrupt at NVIC priority 3; on the Cortex-M NVIC the
smaller number preempts, so the bus interrupt has the higher effective
priority. -/
theorem ezi2c_interrupt_higher_priority :
    higherEffectivePriority ezi2c_intr_config capsense_interrupt_config ∧
    ezi2c_intr_config.intrPriority = EZI2C_INTR_PRIORITY ∧
    capsense_interrupt_config.intrPriority = CAPSENSE_INTR_PRIORITY := by
  decide

/-- Concrete idle-observing environment in which the BIST measurement of
Button 0 fails (nonzero status) while Button 1's succeeds. -/
def envBistFail : Env :=
  { envIdle with measureStatus0 := 2 }

/-- C8: with BIST enabled, each button's capacitance measurement runs
exactly once per processed cycle, strictly after the tuner (reporting)
step and before the next scan start; each status is recorded in its status
variable; and a failing status changes neither LED output relative to the
BIST-disabled build nor prevents the cycle from completing (the second
measurement and the next scan still occur). -/
theorem bist_measurement_recorded (env : Env) (s : ProgState)
    (h : env.busy = false) :
    (loopIteration true env s).2.count
        (Event.measureCapSensor CY_CAPSENSE_BUTTON0_WDGT_ID
          CY_CAPSENSE_BUTTON0_SNS0_ID env.measureStatus0) = 1 ∧
    (loopIteration true env s).2.count
        (Event.measureCapSensor CY_CAPSENSE_BUTTON1_WDGT_ID
          CY_CAPSENSE_BUTTON1_SNS0_ID env.measureStatus1) = 1 ∧
    (∃ i j k l : Nat, i < j ∧ j < k ∧ k < l ∧
      (loopIteration true env s).2.get? i
          = some (Event.runTuner env.tunerStatus) ∧
      (loopIteration true env s).2.get? j
          = some (Event.measureCapSensor CY_CAPSENSE_BUTTON0_WDGT_ID
              CY_CAPSENSE_BUTTON0_SNS0_ID env.measureStatus0) ∧
      (loopIteration true env s).2.get? k
          = some (Event.measureCapSensor CY_CAPSENSE_BUTTON1_WDGT_ID
              CY_CAPSENSE_BUTTON1_SNS0_ID env.measureStatus1) ∧
      (loopIteration true env s).2.get? l
          = some (Event.scanAllWidgets env.scanStatus)) ∧
    (loopIteration true env s).1.cp_0_status = env.measureStatus0 ∧
    (loopIteration true env s).1.cp_1_status = env.measureStatus1 ∧
    (loopIteration true env s).1.button_0_sensor_cp = env.measureCp0 ∧
    (loopIteration true env s).1.button_1_sensor_cp = env.measureCp1 ∧
    (loopIteration true env s).1.led0 = (loopIteration false env s).1.led0 ∧
    (loopIteration true env s).1.led1 = (loopIteration false env s).1.led1 := by
  refine ⟨?_, ?_, ⟨4, 5, 6, 7, by omega, by omega, by omega, ?_, ?_, ?_, ?_⟩,
    ?_, ?_, ?_, ?_, ?_, ?_⟩ <;>
    simp [loopIteration, measure_sensor_cp, h, List.count_cons,
      CY_CAPSENSE_BUTTON0_WDGT_ID, CY_CAPSENSE_BUTTON1_WDGT_ID,
      CY_CAPSENSE_BUTTON0_SNS0_ID, CY_CAPSENSE_BUTTON1_SNS0_ID]

/-- C8 witness: the theorem instantiated at a concrete cycle in which
Button 0's measurement fails (status 2): the failure is recorded, Button
1's measurement still runs, the LEDs are unaffected and the next scan
still starts. -/
theorem bist_measurement_recorded_witness :
    (loopIteration true envBistFail progState0).2.count
        (Event.measureCapSensor CY_CAPSENSE_BUTTON0_WDGT_ID
          CY_CAPSENSE_BUTTON0_SNS0_ID envBistFail.measureStatus0) = 1 ∧
    (loopIteration true envBistFail progState0).2.count
        (Event.measureCapSensor CY_CAPSENSE_BUTTON1_WDGT_ID
          CY_CAPSENSE_BUTTON1_SNS0_ID envBistFail.measureStatus1) = 1 ∧
    (∃ i j k l : Nat, i < j ∧ j < k ∧ k < l ∧
      (loopIteration true envBistFail progState0).2.get? i
          = some (Event.runTuner envBistFail.tunerStatus) ∧
      (loopIteration true envBistFail progState0).2.get? j
          = some (Event.measureCapSensor CY_CAPSENSE_BUTTON0_WDGT_ID
              CY_CAPSENSE_BUTTON0_SNS0_ID envBistFail.measureStatus0) ∧
      (loopIteration true envBistFail progState0).2.get? k
          = some (Event.measureCapSensor CY_CAPSENSE_BUTTON1_WDGT_ID
              CY_CAPSENSE_BUTTON1_SNS0_ID envBistFail.measureStatus1) ∧
      (loopIteration true envBistFail progState0).2.get? l
          = some (Event.scanAllWidgets envBistFail.scanStatus)) ∧
    (loopIteration true envBistFail progState0).1.cp_0_status
        = envBistFail.measureStatus0 ∧
    (loopIteration true envBistFail progState0).1.cp_1_status
        = envBistFail.measureStatus1 ∧
    (loopIteration true envBistFail progState0).1.button_0_sensor_cp
        = envBistFail.measureCp0 ∧
    (loopIteration true envBistFail progState0).1.button_1_sensor_cp
        = envBistFail.measureCp1 ∧
    (loopIteration true envBistFail progState0).1.led0
        = (loopIteration false envBistFail progState0).1.led0 ∧
    (loopIteration true envBistFail progState0).1.led1
        = (loopIteration false envBistFail progState0).1.led1 :=
  bist_measurement_recorded envBistFail progState0 rfl
